import Mathlib

/-!
# Verification of the ProcessManager core

Shallow embedding of `src/code/userprog/processmanager.cc`, the process
identifier / join / broadcast core of a small Nachos-style kernel.

Modelling conventions:

* Machine integers are `Int` (C `int`).  The per-index arrays
  (`processesWaitingOnPID`, `pcbStatuses`, `pcbList`, `lockList`,
  `conditionList`) and the bitmap are total maps `Int → _`, so the
  out-of-bounds write that `getPID` performs at index `-1` on exhaustion
  is visible as an update at key `-1`.
* The bitmap (`BitMap` of capacity `MAX_PROCESSES`) is a map
  `Int → Bool` together with the capacity passed explicitly as a `Nat`
  parameter `maxProcs` (the header defining the numeric value of
  `MAX_PROCESSES` is not part of the sources); `BitMap::Find` both finds
  the lowest clear bit below the capacity and marks it, returning `-1`
  when none exists; `Clear` clears a bit; `Test` reads it.
* Locks and condition variables are modelled by their existence
  (`lockList`, `conditionList : Int → Bool`, `false` = the C++ `NULL`).
  A `Condition::Wait` inside `join` suspends the caller while releasing
  the lock; the interference of other threads during the k-th wait is
  an arbitrary environment step `env k : PMState → PMState`, and the
  wait loop is given explicit fuel: `none` models a join still blocked
  after `fuel` wakeups, `some (s, k)` a join that returned in state `s`
  after `k` waits.
* `currentThread->space->getPCB()->status` — the *calling* process's own
  status word — is an external, caller-side cell (the spec explicitly
  excludes it from the core's owned state); it is the field
  `currentStatus`.
-/

/-- A process control block as seen by this core: only its mutable
`status` field is ever accessed (`pcbList[pid]->status`). -/
structure PCB where
  status : Int
deriving DecidableEq, Repr

/-- The state owned by `ProcessManager`: the PID bitmap, the
per-PID waiter counts, cached statuses, PCB references, the existence of
the lazily created per-PID locks and conditions, and the caller-side
current-process status cell. -/
structure PMState where
  bitmap : Int → Bool
  waitingCount : Int → Int
  pcbStatuses : Int → Int
  pcbList : Int → Option PCB
  lockList : Int → Bool
  conditionList : Int → Bool
  currentStatus : Int

/-- Pointwise update of a `Bool`-valued map (one array store). -/
def updB (f : Int → Bool) (k : Int) (v : Bool) : Int → Bool :=
  fun i => if i = k then v else f i

/-- Pointwise update of an `Int`-valued map (one array store). -/
def updI (f : Int → Int) (k : Int) (v : Int) : Int → Int :=
  fun i => if i = k then v else f i

/-- Pointwise update of the PCB-reference map (one array store). -/
def updP (f : Int → Option PCB) (k : Int) (v : Option PCB) : Int → Option PCB :=
  fun i => if i = k then v else f i

/-- `BitMap::Find` without the marking side effect: index of the lowest
clear bit in `[0, maxProcs)`, or `-1` when every bit is set. -/
def bitMapFindIndex (maxProcs : Nat) (bm : Int → Bool) : Int :=
  match (List.range maxProcs).find? (fun i => !bm (Int.ofNat i)) with
  | some i => Int.ofNat i
  | none => -1

/-- `ProcessManager::getPID` (processmanager.cc:50-56): `Find` a free
PID (marking it in the bitmap when one exists), then unconditionally
set `processesWaitingOnPID[newPID] = 0` and increment it — also when
`newPID = -1`.  Returns the PID together with the new state. -/
def getPID (maxProcs : Nat) (s : PMState) : Int × PMState :=
  let newPID := bitMapFindIndex maxProcs s.bitmap
  let bm := if 0 ≤ newPID then updB s.bitmap newPID true else s.bitmap
  let wc1 := updI s.waitingCount newPID 0
  let wc2 := updI wc1 newPID (wc1 newPID + 1)
  (newPID, { s with bitmap := bm, waitingCount := wc2 })

/-- `ProcessManager::clearPID` (processmanager.cc:64-70): decrement
`processesWaitingOnPID[pid]`; if the count is now `0`, clear the PID's
bitmap bit. -/
def clearPID (s : PMState) (pid : Int) : PMState :=
  let wc := updI s.waitingCount pid (s.waitingCount pid - 1)
  if wc pid = 0 then
    { s with waitingCount := wc, bitmap := updB s.bitmap pid false }
  else
    { s with waitingCount := wc }

/-- `ProcessManager::addProcess` (processmanager.cc:77-79): store the
PCB reference, unconditionally. -/
def addProcess (s : PMState) (pcb : PCB) (pid : Int) : PMState :=
  { s with pcbList := updP s.pcbList pid (some pcb) }

/-- `ProcessManager::getStatus` (processmanager.cc:159-164): `-1`
("process finished"/gone) when the PID's bitmap bit is clear, otherwise
the cached status. -/
def getStatus (s : PMState) (pid : Int) : Int :=
  if s.bitmap pid = false then -1 else s.pcbStatuses pid

/-- Modelled from the spec: the `P_RUNNING` process-status constant.
The header defining the status constants (`processmanager.h` /
`pcb.h`) is not among the sources; the spec requires a status domain
with at least `RUNNING` and `BLOCKED`, encoded as distinct non-negative
enumeration values. -/
def P_RUNNING : Int := 0

/-- Modelled from the spec: the `P_BLOCKED` process-status constant
(see `P_RUNNING`). -/
def P_BLOCKED : Int := 1

/-- Modelled from the spec: the legitimate (non-sentinel) status domain,
"including at least `RUNNING`, `BLOCKED`"; the finished/gone state is
represented structurally, not by a status value. -/
def legitStatus (v : Int) : Prop :=
  v = P_RUNNING ∨ v = P_BLOCKED

/-- `ProcessManager::broadcast` (processmanager.cc:136-152): copy the
PCB's current status into `pcbStatuses[pid]`, then `Broadcast` on the
PID's condition variable when one exists.  Dereferencing a `NULL`
`pcbList[pid]` is a crash, hence `none`; the `Bool` records whether
`Condition::Broadcast` was invoked. -/
def broadcast (s : PMState) (pid : Int) : Option (PMState × Bool) :=
  match s.pcbList pid with
  | none => none
  | some pcb =>
      some ({ s with pcbStatuses := updI s.pcbStatuses pid pcb.status },
            s.conditionList pid)

/-- The wait loop of `ProcessManager::join` (processmanager.cc:111-114):
re-check `getStatus pid ≠ -1`; while it holds, `Wait` (the environment
step `env k` is the interference of other threads during the k-th wait)
and re-check.  `k` counts the waits performed so far; `fuel` bounds the
number of further waits, `none` meaning the join is still blocked. -/
def joinLoop (pid : Int) (env : Nat → PMState → PMState) :
    Nat → Nat → PMState → Option (PMState × Nat)
  | k, 0, s => if getStatus s pid = -1 then some (s, k) else none
  | k, fuel + 1, s =>
      if getStatus s pid = -1 then some (s, k)
      else joinLoop pid env (k + 1) fuel (env k s)

/-- The tail of `ProcessManager::join` after the wait loop
(processmanager.cc:116-127): restore the caller's status to
`P_RUNNING`, decrement `processesWaitingOnPID[pid]`, and clear the
PID's bitmap bit when the count reached `0`. -/
def joinFinish (s : PMState) (pid : Int) : PMState :=
  let s5 := { s with currentStatus := P_RUNNING }
  let wc := updI s5.waitingCount pid (s5.waitingCount pid - 1)
  if wc pid = 0 then
    { s5 with waitingCount := wc, bitmap := updB s5.bitmap pid false }
  else
    { s5 with waitingCount := wc }

/-- The prologue of `ProcessManager::join` (processmanager.cc:89-109):
lazily create the PID's lock and condition, acquire the lock, increment
`processesWaitingOnPID[pid]`, and set the caller's status to
`P_BLOCKED`. -/
def joinPre (s : PMState) (pid : Int) : PMState :=
  let s1 := { s with lockList := updB s.lockList pid true,
                     conditionList := updB s.conditionList pid true }
  let s2 := { s1 with
              waitingCount := updI s1.waitingCount pid (s1.waitingCount pid + 1) }
  { s2 with currentStatus := P_BLOCKED }

/-- `ProcessManager::join` (processmanager.cc:87-128): the prologue
`joinPre`, the wait loop — run only when `pid ≠ 0` —, then `joinFinish`
and the lock release.  `some (s, k)` is a join that returned in state
`s` after `k` condition waits; `none` a join still blocked after `fuel`
wakeups. -/
def join (s : PMState) (pid : Int) (env : Nat → PMState → PMState)
    (fuel : Nat) : Option (PMState × Nat) :=
  let s3 := joinPre s pid
  let r := if pid = 0 then some (s3, 0) else joinLoop pid env 0 fuel s3
  match r with
  | none => none
  | some (s4, k) => some (joinFinish s4 pid, k)

/-!
## Lock-discipline traces

For the locking-discipline claim each operation is also rendered as its
sequence of atomic micro-operations on PID `p`, read off the source
statement by statement, so that "the waiter count is written only while
`slots[p].lock` is held" becomes a decidable check over that sequence.
A `wait p` releases the lock while suspended and has re-acquired it by
the time the next action runs. -/
inductive Act where
  | acquire (p : Int)
  | release (p : Int)
  | wait (p : Int)
  | setCount (p : Int)
  | incCount (p : Int)
  | decCount (p : Int)
  | bmFind
  | bmClear (p : Int)
  | writeCached (p : Int)
  | condBroadcast (p : Int)
  | mkLock (p : Int)
  | mkCond (p : Int)
  | setOwnStatus
deriving DecidableEq, Repr

/-- The PID whose waiter count an action writes, if any. -/
def countWrite : Act → Option Int
  | Act.setCount p => some p
  | Act.incCount p => some p
  | Act.decCount p => some p
  | _ => none

/-- Effect of an action on the set of per-PID locks the thread holds. -/
def heldStep (held : List Int) : Act → List Int
  | Act.acquire p => p :: held
  | Act.release p => held.erase p
  | _ => held

/-- Every waiter-count write in the trace happens while the written
PID's lock is in the held set (started from `held`). -/
def countWritesLockedFrom : List Int → List Act → Bool
  | _, [] => true
  | held, a :: rest =>
      (match countWrite a with
       | some p => decide (p ∈ held)
       | none => true) && countWritesLockedFrom (heldStep held a) rest

/-- Every waiter-count write in the trace happens under the written
PID's lock, starting with no locks held. -/
def countWritesLocked (tr : List Act) : Bool :=
  countWritesLockedFrom [] tr

/-- Micro-operations of `getPID` when `Find` returns `p`
(processmanager.cc:50-56): no lock is touched. -/
def getPIDTrace (p : Int) : List Act :=
  [Act.bmFind, Act.setCount p, Act.incCount p]

/-- Micro-operations of `clearPID p` (processmanager.cc:64-70),
`willClear` being whether the count reached `0`: no lock is touched. -/
def clearPIDTrace (p : Int) (willClear : Bool) : List Act :=
  Act.decCount p :: (if willClear then [Act.bmClear p] else [])

/-- Micro-operations of `join p` (processmanager.cc:87-128) with
`numWaits` condition waits, `willClear` being whether the final count
reached `0`. -/
def joinTrace (p : Int) (numWaits : Nat) (willClear : Bool) : List Act :=
  [Act.mkLock p, Act.mkCond p, Act.acquire p, Act.incCount p, Act.setOwnStatus]
    ++ List.replicate numWaits (Act.wait p)
    ++ [Act.setOwnStatus, Act.decCount p]
    ++ (if willClear then [Act.bmClear p] else [])
    ++ [Act.release p]

/-- Micro-operations of `broadcast p` (processmanager.cc:136-152),
`condExists` being whether `conditionList[p]` is non-`NULL`. -/
def broadcastTrace (p : Int) (condExists : Bool) : List Act :=
  Act.writeCached p :: (if condExists then [Act.condBroadcast p] else [])

/-!
## Concrete states for witnesses and counterexamples -/

/-- The identity interference: no other thread changes the state during
a wait. -/
def envId : Nat → PMState → PMState := fun _ s => s

/-- An empty manager state: no PID allocated, all counts `0`, all
cached statuses `P_RUNNING`, no PCBs, no locks or conditions. -/
def exSt : PMState :=
  { bitmap := fun _ => false
    waitingCount := fun _ => 0
    pcbStatuses := fun _ => 0
    pcbList := fun _ => none
    lockList := fun _ => false
    conditionList := fun _ => false
    currentStatus := 0 }

/-- A state in which PID `0` is allocated (bitmap bit set) while its
waiter count is `0`. -/
def exLive0 : PMState :=
  { exSt with bitmap := fun i => decide (i = 0) }

/-- A state whose bitmap is completely full (every PID allocated) and
whose waiter counts are all `0`. -/
def exFull : PMState :=
  { exSt with bitmap := fun _ => true }

/-- A state in which PIDs `0` and `2` are allocated, PID `2` carries a
registered PCB with status `P_RUNNING` and an existing condition
variable, and PID `3`'s slot holds a PCB with status `7`. -/
def exReg : PMState :=
  { exSt with
      bitmap := fun i => decide (i = 0 ∨ i = 2)
      pcbList := fun i => if i = 2 then some ⟨0⟩ else if i = 3 then some ⟨7⟩ else none
      conditionList := fun i => decide (i = 2) }

/-- A state in which PID `0` is allocated with waiter count `1` and PID
`5` has waiter count `2` (two outstanding references). -/
def exCnt : PMState :=
  { exSt with
      bitmap := fun i => decide (i = 0 ∨ i = 5)
      waitingCount := fun i => if i = 0 then 1 else if i = 5 then 2 else 0 }

/-!
## Helper lemmas -/

/-- The wait loop only ever exits in a state whose status query reports
the gone sentinel `-1`. -/
theorem joinLoop_exit_status (pid : Int) (env : Nat → PMState → PMState) :
    ∀ fuel k s s' n, joinLoop pid env k fuel s = some (s', n) →
      getStatus s' pid = -1 := by
  intro fuel
  induction fuel with
  | zero =>
      intro k s s' n h
      simp only [joinLoop] at h
      split at h
      · next hg =>
          simp only [Option.some.injEq, Prod.mk.injEq] at h
          obtain ⟨h1, h2⟩ := h
          subst h1
          exact hg
      · simp at h
  | succ f ih =>
      intro k s s' n h
      simp only [joinLoop] at h
      split at h
      · next hg =>
          simp only [Option.some.injEq, Prod.mk.injEq] at h
          obtain ⟨h1, h2⟩ := h
          subst h1
          exact hg
      · exact ih (k + 1) (env k s) s' n h

/-- If the status is already the sentinel when the loop is entered, the
loop exits at once, performing no wait. -/
theorem joinLoop_immediate (pid : Int) (env : Nat → PMState → PMState)
    (k fuel : Nat) (s : PMState) (h : getStatus s pid = -1) :
    joinLoop pid env k fuel s = some (s, k) := by
  cases fuel <;> simp [joinLoop, h]

/-- The post-loop bookkeeping preserves the gone sentinel. -/
theorem joinFinish_preserves_gone (s : PMState) (pid : Int)
    (h : getStatus s pid = -1) : getStatus (joinFinish s pid) pid = -1 := by
  simp only [joinFinish]
  split
  · simp [getStatus, updB]
  · simpa [getStatus] using h

/-!
## Claim theorems -/

/-- Claim C1: for every `pid ≠ 0`, `join` never returns while the
status query reports a non-finished value — the wait loop re-checks
`getStatus` after every wakeup (so spurious wakeups are tolerated) and
exits only on the finished/gone sentinel `-1`, which the post-loop
bookkeeping preserves; hence the returned state always reports `-1`. -/
theorem join_returns_only_finished (s : PMState) (pid : Int)
    (env : Nat → PMState → PMState) (fuel : Nat) (s' : PMState) (n : Nat)
    (hpid : pid ≠ 0) (h : join s pid env fuel = some (s', n)) :
    getStatus s' pid = -1 := by
  simp only [join, if_neg hpid] at h
  cases hl : joinLoop pid env 0 fuel (joinPre s pid) with
  | none => rw [hl] at h; simp at h
  | some p =>
      rw [hl] at h
      obtain ⟨s4, k⟩ := p
      simp only [Option.some.injEq, Prod.mk.injEq] at h
      obtain ⟨h1, h2⟩ := h
      subst h1
      exact joinFinish_preserves_gone s4 pid
        (joinLoop_exit_status pid env fuel 0 (joinPre s pid) s4 k hl)

/-- Witness for C1 at a concrete input: joining the never-allocated PID
`1` of the empty state returns at once, and the returned state reports
the sentinel. -/
theorem join_returns_only_finished_witness :
    getStatus (joinFinish (joinPre exSt 1) 1) 1 = -1 :=
  join_returns_only_finished exSt 1 envId 0 (joinFinish (joinPre exSt 1) 1) 0
    (by decide) rfl

/-- Claim C2: `getPID` (allocate) initializes the waiter count of the
returned PID to `1`; and in both `clearPID` (release) and the
post-loop decrement of `join`, the PID's bitmap bit is cleared exactly
when the waiter count transitions from `1` to `0` — the count having
reached `0` after the decrement is the sole removal condition. -/
theorem waiter_count_reclamation (maxProcs : Nat) (s : PMState) (p : Int)
    (hlive : s.bitmap p = true) :
    (getPID maxProcs s).2.waitingCount (getPID maxProcs s).1 = 1
    ∧ ((clearPID s p).bitmap p = false ↔ s.waitingCount p = 1)
    ∧ ((joinFinish s p).bitmap p = false ↔ s.waitingCount p = 1) := by
  refine ⟨?_, ?_, ?_⟩
  · simp [getPID, updI]
  · by_cases h : s.waitingCount p - 1 = 0
    · simp only [clearPID, updI, if_pos, h]
      simp [updB]
      omega
    · simp only [clearPID, updI]
      rw [if_neg (by simpa using h)]
      simp [hlive]
      omega
  · by_cases h : s.waitingCount p - 1 = 0
    · simp only [joinFinish, updI, if_pos, h]
      simp [updB]
      omega
    · simp only [joinFinish, updI]
      rw [if_neg (by simpa using h)]
      simp [hlive]
      omega

/-- Witness for C2 at a concrete input: capacity `2`, a state where
PIDs `0` and `5` are allocated, PID `5` with waiter count `2`. -/
theorem waiter_count_reclamation_witness :
    exCnt.bitmap 5 = true
    ∧ ((getPID 2 exCnt).2.waitingCount (getPID 2 exCnt).1 = 1
       ∧ ((clearPID exCnt 5).bitmap 5 = false ↔ exCnt.waitingCount 5 = 1)
       ∧ ((joinFinish exCnt 5).bitmap 5 = false ↔ exCnt.waitingCount 5 = 1)) :=
  ⟨by decide, waiter_count_reclamation 2 exCnt 5 (by decide)⟩

/-- Claim C3 (evaluation of the code at the failing input): on the
empty state with capacity `2`, `getPID` returns PID `0`; but on the
full state it returns the exhausted sentinel `-1` while still writing
waiter count `1` at index `-1` — the out-of-bounds store
`processesWaitingOnPID[-1]`, a state change beyond the failure
report. -/
theorem getPID_exhausted_oob_write :
    (getPID 2 exSt).1 = 0
    ∧ (getPID 2 exFull).1 = -1
    ∧ exFull.waitingCount (-1) = 0
    ∧ (getPID 2 exFull).2.waitingCount (-1) = 1 := by decide

/-- Claim C4 counterexample: with `waiterCount[5] = 0`, `clearPID` does
not fail with `InvalidState` — it decrements the counter to `-1`. -/
theorem clearPID_double_release_corrupts :
    exSt.waitingCount 5 = 0 ∧ (clearPID exSt 5).waitingCount 5 = -1 := by decide

/-- Claim C4 (amended): `clearPID` performs no precondition check and
has no failure path; it unconditionally decrements the waiter count
(driving it to `-1` when it was already `0`). -/
theorem clearPID_always_decrements (s : PMState) (p : Int) :
    (clearPID s p).waitingCount p = s.waitingCount p - 1 := by
  simp only [clearPID]
  split <;> simp [updI]

/-- Claim C5: `getStatus` returns the gone sentinel `-1` iff the PID is
not in the identifier space, and otherwise returns the cached status;
the sentinel is distinct from the cached status whenever that status is
a legitimate status value. -/
theorem getStatus_gone_iff (s : PMState) (p : Int)
    (hleg : legitStatus (s.pcbStatuses p)) :
    (getStatus s p = -1 ↔ s.bitmap p = false)
    ∧ (s.bitmap p = true → getStatus s p = s.pcbStatuses p)
    ∧ s.pcbStatuses p ≠ -1 := by
  have hne : s.pcbStatuses p ≠ -1 := by
    rcases hleg with h | h <;> rw [h] <;> decide
  refine ⟨?_, ?_, hne⟩
  · unfold getStatus
    by_cases hb : s.bitmap p = false <;> simp [hb, hne]
  · intro hb
    simp [getStatus, hb]

/-- Witness for C5 at a concrete input: PID `2` of `exReg` is live with
cached status `P_RUNNING`. -/
theorem getStatus_gone_iff_witness :
    legitStatus (exReg.pcbStatuses 2)
    ∧ ((getStatus exReg 2 = -1 ↔ exReg.bitmap 2 = false)
       ∧ (exReg.bitmap 2 = true → getStatus exReg 2 = exReg.pcbStatuses 2)
       ∧ exReg.pcbStatuses 2 ≠ -1) :=
  ⟨Or.inl rfl, getStatus_gone_iff exReg 2 (Or.inl rfl)⟩

/-- Claim C6 counterexample: `join 0` does not leave the manager state
unchanged — on a state where PID `0` is allocated with waiter count
`0`, it removes PID `0` from the identifier space. -/
theorem join_zero_clears_pid_zero :
    exLive0.bitmap 0 = true ∧ exLive0.waitingCount 0 = 0
    ∧ (join exLive0 0 envId 0).map (fun q => q.1.bitmap 0) = some false := by
  refine ⟨by decide, by decide, rfl⟩

/-- Claim C6 (amended): `join 0` never waits on a condition variable
(it returns after `0` waits, whatever the fuel and the environment) and
preserves the waiter counts, cached statuses and PCB references; but it
is not a pure no-op: it still runs the join bookkeeping, so it removes
PID `0` from the identifier space exactly when `waiterCount[0] = 0`
(and it lazily creates slot `0`'s lock and condition). -/
theorem join_zero_behavior (s : PMState) (env : Nat → PMState → PMState)
    (fuel : Nat) :
    (join s 0 env fuel).map
        (fun q => (q.2, q.1.waitingCount, q.1.pcbStatuses, q.1.pcbList,
                   q.1.bitmap))
      = some (0, s.waitingCount, s.pcbStatuses, s.pcbList,
              if s.waitingCount 0 = 0 then updB s.bitmap 0 false
              else s.bitmap) := by
  have h1 : s.waitingCount 0 + 1 - 1 = s.waitingCount 0 := by omega
  by_cases h0 : s.waitingCount 0 = 0
  · simp only [join, joinPre, joinFinish, updI, if_pos, Option.map_some]
    simp [h1, h0]
    funext i
    by_cases hi : i = 0 <;> simp [updI, hi, h0]
  · simp only [join, joinPre, joinFinish, updI, if_pos, Option.map_some]
    simp [h1, h0]
    funext i
    by_cases hi : i = 0 <;> simp [updI, hi, h0]

/-- Claim C7: `broadcast` copies the PCB's current status into the
cached-status slot, and the condition-variable broadcast is performed
exactly when the PID's condition variable exists (`conditionList pid`);
no condition means no synchronization operation, and nothing else in
the state changes. -/
theorem broadcast_behavior (s : PMState) (p : Int) (pcb : PCB)
    (h : s.pcbList p = some pcb) :
    broadcast s p =
      some ({ s with pcbStatuses := updI s.pcbStatuses p pcb.status },
            s.conditionList p) := by
  unfold broadcast
  rw [h]

/-- Witness for C7 at a concrete input: slot `3` of `exReg` holds a PCB
with status `7` and no condition variable exists for PID `3`. -/
theorem broadcast_behavior_witness :
    exReg.pcbList 3 = some ⟨7⟩
    ∧ broadcast exReg 3 =
        some ({ exReg with pcbStatuses := updI exReg.pcbStatuses 3 (7 : Int) },
              exReg.conditionList 3) :=
  ⟨rfl, broadcast_behavior exReg 3 ⟨7⟩ rfl⟩

/-- Claim C8 counterexample: slot `3` of `exReg` already holds a live
PCB reference, yet `addProcess` does not fail with `AlreadyRegistered`:
it silently overwrites the association. -/
theorem addProcess_silent_overwrite :
    exReg.pcbList 3 = some ⟨7⟩
    ∧ (addProcess exReg ⟨9⟩ 3).pcbList 3 = some ⟨9⟩ := ⟨rfl, rfl⟩

/-- Claim C8 (amended): `addProcess` records the association
unconditionally — it has no failure path and overwrites any PCB
reference already occupying the slot. -/
theorem addProcess_overwrites (s : PMState) (pcb : PCB) (p : Int) :
    (addProcess s pcb p).pcbList p = some pcb := by
  simp [addProcess, updP]

/-- The discipline check distributes over trace concatenation, the
second half starting from the held set the first half folds to. -/
theorem countWritesLockedFrom_append (l1 : List Act) (held : List Int)
    (l2 : List Act) :
    countWritesLockedFrom held (l1 ++ l2)
      = (countWritesLockedFrom held l1
          && countWritesLockedFrom (l1.foldl heldStep held) l2) := by
  induction l1 generalizing held with
  | nil => simp [countWritesLockedFrom]
  | cons a t ih =>
      simp [countWritesLockedFrom, ih, Bool.and_assoc]

/-- A run of condition waits writes no counter and leaves the held set
unchanged. -/
theorem countWritesLockedFrom_replicate_wait (n : Nat) (p : Int)
    (held : List Int) :
    countWritesLockedFrom held (List.replicate n (Act.wait p)) = true
    ∧ (List.replicate n (Act.wait p)).foldl heldStep held = held := by
  induction n with
  | zero => simp [countWritesLockedFrom]
  | succ m ih =>
      simp [List.replicate, countWritesLockedFrom, countWrite, heldStep, ih]

/-- Claim C9 counterexample: the waiter-count writes of `getPID`
(allocate) and of `clearPID` (release) happen with no per-PID lock
held. -/
theorem count_write_without_lock :
    countWritesLocked (getPIDTrace 1) = false
    ∧ countWritesLocked (clearPIDTrace 1 true) = false := by decide

/-- Claim C9 (amended): `join` mutates the waiter count only while
holding the per-PID lock, and `broadcast` never writes it; but `getPID`
(allocate) and `clearPID` (release) write `waiterCount[p]` without
acquiring `slots[p].lock` (they rely on the caller-held manager-wide
lock instead). -/
theorem count_lock_discipline (p : Int) (numWaits : Nat)
    (wcJ wcC cEx : Bool) :
    countWritesLocked (joinTrace p numWaits wcJ) = true
    ∧ countWritesLocked (broadcastTrace p cEx) = true
    ∧ countWritesLocked (getPIDTrace p) = false
    ∧ countWritesLocked (clearPIDTrace p wcC) = false := by
  refine ⟨?_, ?_, ?_, ?_⟩
  · have hrep := countWritesLockedFrom_replicate_wait numWaits p [p]
    cases wcJ <;>
      simp [joinTrace, countWritesLocked, countWritesLockedFrom_append,
            countWritesLockedFrom, countWrite, heldStep, hrep.1, hrep.2]
  · cases cEx <;>
      simp [broadcastTrace, countWritesLocked, countWritesLockedFrom,
            countWrite, heldStep]
  · simp [getPIDTrace, countWritesLocked, countWritesLockedFrom, countWrite,
          heldStep]
  · cases wcC <;>
      simp [clearPIDTrace, countWritesLocked, countWritesLockedFrom,
            countWrite, heldStep]

/-- Claim C10: joining a PID in `[1, maxProcs)` that is not in the
identifier space performs no condition wait and returns normally,
leaving the PID's waiter count and its (absent) identifier-space
membership as they were. -/
theorem join_unallocated_pid (maxProcs : Nat) (s : PMState) (p : Int)
    (env : Nat → PMState → PMState) (fuel : Nat)
    (h1 : 1 ≤ p) (h2 : p < (maxProcs : Int)) (h3 : s.bitmap p = false) :
    (join s p env fuel).map (fun q => (q.2, q.1.waitingCount p, q.1.bitmap p))
      = some (0, s.waitingCount p, false) := by
  have hp0 : p ≠ 0 := by omega
  have hg : getStatus (joinPre s p) p = -1 := by
    simp [getStatus, joinPre, h3]
  simp only [join, if_neg hp0,
             joinLoop_immediate p env 0 fuel (joinPre s p) hg]
  have hc : s.waitingCount p + 1 - 1 = s.waitingCount p := by omega
  by_cases h : s.waitingCount p = 0 <;>
    simp [joinFinish, joinPre, updI, updB, hc, h, h3]

/-- Witness for C10 at a concrete input: PID `2` with capacity `4` on
the empty state. -/
theorem join_unallocated_pid_witness :
    (1 : Int) ≤ 2 ∧ (2 : Int) < ((4 : Nat) : Int) ∧ exSt.bitmap 2 = false
    ∧ (join exSt 2 envId 0).map (fun q => (q.2, q.1.waitingCount 2, q.1.bitmap 2))
        = some (0, exSt.waitingCount 2, false) :=
  ⟨by decide, by decide, rfl,
   join_unallocated_pid 4 exSt 2 envId 0 (by decide) (by decide) rfl⟩
